import Mathlib

/-!
Shallow embedding of the Technical Analysis & Signal Fusion Engine of the
QuotexTraderAI browser extension.

Sources embedded:
  * `src/QuotexTraderAI/background.js`  — signal scorer, accuracy tracker,
    background copy of the external-prediction call.
  * `src/QuotexTraderAI/utils/dataExtractor.js` — candle normalisation /
    validation and the indicator library (EMA, MACD, RSI, Bollinger, volume).
  * `src/unnamed/part_001` — AI-analysis module: external-prediction call with
    pattern-based fallback, candlestick pattern detector, trend detector.

Modelling conventions:
  * JS numbers are idealised as rationals (`ℚ`).  The only places where IEEE
    special values (NaN / Infinity) are observable in the embedded code are
    modelled explicitly and documented at the definition site.
  * A JS value that may be `undefined` (or `NaN` where the code tests `isNaN`)
    is modelled as `Option ℚ` with `none` for the absent value.
  * The impure inputs of a function (`Date.now()`, the outcome of the `fetch`
    of the external predictor) are passed as explicit parameters.
-/

namespace QuotexTrader

/-- One OHLCV candle after normalisation (all fields present).
The JS field `open` is spelled `open_` because `open` is a Lean keyword. -/
structure Candle where
  timestamp : ℚ
  open_ : ℚ
  high : ℚ
  low : ℚ
  close : ℚ
  volume : ℚ
  deriving DecidableEq, Repr, Inhabited

/-- A raw candle as received by `normalizeCandleData` after the format
dispatch (`[t,o,h,l,c,v]` array / `{open,..}` / `{o,..}` object): each field is
`none` when the JS value is `undefined` (or `NaN`, which `isValidCandle`
treats the same way). -/
structure RawCandle where
  timestamp : Option ℚ
  open_ : Option ℚ
  high : Option ℚ
  low : Option ℚ
  close : Option ℚ
  volume : Option ℚ
  deriving DecidableEq, Repr

/-- JS `x || d` for numbers: `undefined`, `NaN` and `0` are falsy. -/
def jsOrQ (v : Option ℚ) (d : ℚ) : ℚ :=
  match v with
  | some x => if x = 0 then d else x
  | none => d

/-- JS `s || d` for strings: `undefined` and the empty string are falsy. -/
def jsOrStr (v : Option String) (d : String) : String :=
  match v with
  | some s => if s = "" then d else s
  | none => d

/-- `isValidCandle` (dataExtractor.js:422-431): the four OHLC fields must be
defined and not NaN.  No ordering between them is checked. -/
def isValidCandle (c : RawCandle) : Bool :=
  c.open_.isSome && c.high.isSome && c.low.isSome && c.close.isSome

/-- `getTimeframeInMs` (dataExtractor.js:438-445). -/
def getTimeframeInMs (tf : String) : ℚ :=
  if tf = "M1" then 60000
  else if tf = "M5" then 300000
  else if tf = "M15" then 900000
  else 60000

/-- Loop body of `normalizeCandleData`: walks the raw items carrying the
synthetic timestamp counter (incremented by `interval` per item); a candle is
kept exactly when `isValidCandle` holds.  `timestamp: item.timestamp ||
item.time || timestamp` and `volume: item.volume || 0` use JS falsiness
(`jsOrQ`); the `timestamp`/`time` (resp. `t`/`ts`) alternatives are merged
into the single `timestamp` field of `RawCandle`. -/
def normGo (interval : ℚ) : ℚ → List RawCandle → List Candle
  | _, [] => []
  | ts, item :: rest =>
    let c : Candle :=
      { timestamp := jsOrQ item.timestamp ts
        open_ := item.open_.getD 0
        high := item.high.getD 0
        low := item.low.getD 0
        close := item.close.getD 0
        volume := jsOrQ item.volume 0 }
    if isValidCandle item then c :: normGo interval (ts + interval) rest
    else normGo interval (ts + interval) rest

/-- `normalizeCandleData` (dataExtractor.js:350-415).  `now` is the value of
`Date.now()`; the initial synthetic timestamp is `now - length·interval`. -/
def normalizeCandleData (data : List RawCandle) (tf : String) (now : ℚ) : List Candle :=
  normGo (getTimeframeInMs tf) (now - data.length * getTimeframeInMs tf) data

/-- The per-candle OHLC invariant of the specification (§3):
`low ≤ min(open, close) ≤ max(open, close) ≤ high`. -/
def candleInvariantOk (c : Candle) : Prop :=
  c.low ≤ min c.open_ c.close ∧ max c.open_ c.close ≤ c.high

instance (c : Candle) : Decidable (candleInvariantOk c) := by
  unfold candleInvariantOk; infer_instance

/-! ## Accuracy tracker (background.js:231-244) -/

structure AccuracyStats where
  totalSignals : ℕ
  correctSignals : ℕ
  deriving DecidableEq, Repr

/-- `trackSignalAccuracy` (background.js:231-244): increments `totalSignals`,
increments `correctSignals` for a `buy`/`sell` signal with a `win` outcome,
and returns the updated stats together with the returned number
`(correctSignals / totalSignals) * 100`. -/
def trackSignalAccuracy (st : AccuracyStats) (signalType result : String) :
    AccuracyStats × ℚ :=
  let st1 : AccuracyStats := { st with totalSignals := st.totalSignals + 1 }
  let st2 : AccuracyStats :=
    if (signalType = "buy" ∧ result = "win") ∨ (signalType = "sell" ∧ result = "win") then
      { st1 with correctSignals := st1.correctSignals + 1 }
    else st1
  (st2, (st2.correctSignals : ℚ) / (st2.totalSignals : ℚ) * 100)

/-! ## Indicator library (dataExtractor.js:457-825)

Result bundles.  `upper`, `lower` and `width` of the source's Bollinger
record are `middle ± multiplier·√variance` and `(upper-lower)/middle`; since
`√` is irrational they are not stored but derived in the theorems below (for
the short-series branch the source's zeros coincide with
`middle = variance = 0`).  `RsiInd.value = none` encodes the IEEE `NaN`
that the source can return (see `calculateRSI`). -/

inductive Crossover | bullish | bearish | none
  deriving DecidableEq, Repr

inductive BbPosition | upper | middle | lower
  deriving DecidableEq, Repr

inductive VolTrend | increasing | decreasing | high | low | stable
  deriving DecidableEq, Repr

structure EmaInd where
  ema20 : ℚ
  ema50 : ℚ
  crossover : Crossover
  deriving DecidableEq, Repr

structure MacdInd where
  line : ℚ
  signal : ℚ
  histogram : ℚ
  previousHistogram : ℚ
  deriving DecidableEq, Repr

structure RsiInd where
  value : Option ℚ
  deriving DecidableEq, Repr

structure BbInd where
  middle : ℚ
  variance : ℚ
  position : BbPosition
  deriving DecidableEq, Repr

structure VolInd where
  current : ℚ
  average : ℚ
  trend : VolTrend
  deriving DecidableEq, Repr

structure Indicators where
  ema : EmaInd
  macd : MacdInd
  rsi : RsiInd
  bb : BbInd
  volume : VolInd
  deriving DecidableEq, Repr

/-- `getEmptyIndicators` (dataExtractor.js:508-516): the default bundle used
when there is not enough history or a calculator throws. -/
def getEmptyIndicators : Indicators :=
  { ema := { ema20 := 0, ema50 := 0, crossover := .none }
    macd := { line := 0, signal := 0, histogram := 0, previousHistogram := 0 }
    rsi := { value := some 50 }
    bb := { middle := 0, variance := 0, position := .middle }
    volume := { current := 0, average := 0, trend := .stable } }

/-- One step of the EMA recurrence (dataExtractor.js:584):
`(price - prev) * multiplier + prev`. -/
def emaStep (mult prev price : ℚ) : ℚ :=
  (price - prev) * mult + prev

/-- The EMA loop (dataExtractor.js:583-586): successive `emaStep`s, emitting
every intermediate value. -/
def emaScan (mult : ℚ) : ℚ → List ℚ → List ℚ
  | _, [] => []
  | prev, p :: ps =>
    let e := emaStep mult prev p
    e :: emaScan mult e ps

/-- `getEMA` (dataExtractor.js:565-589): zero list when the series is shorter
than `period`; otherwise `period - 1` zeros, the SMA seed, then the
recurrence over the remaining prices. -/
def getEMA (prices : List ℚ) (period : ℕ) : List ℚ :=
  if prices.length < period then prices.map (fun _ => 0)
  else
    let sma := ((prices.take period).sum) / (period : ℚ)
    let mult := 2 / ((period : ℚ) + 1)
    List.replicate (period - 1) 0 ++ sma :: emaScan mult sma (prices.drop period)

/-- `calculateEMA` (dataExtractor.js:523-557): last EMA-20 and EMA-50 values
plus the crossover of the last two evaluation points (only checked when at
least 52 prices are available). -/
def calculateEMA (prices : List ℚ) : EmaInd :=
  let ema20 := getEMA prices 20
  let ema50 := getEMA prices 50
  let c20 := ema20.getD (ema20.length - 1) 0
  let c50 := ema50.getD (ema50.length - 1) 0
  let crossover :=
    if 52 ≤ prices.length then
      let p20 := ema20.getD (ema20.length - 2) 0
      let p50 := ema50.getD (ema50.length - 2) 0
      if p20 ≤ p50 ∧ c20 > c50 then Crossover.bullish
      else if p20 ≥ p50 ∧ c20 < c50 then Crossover.bearish
      else Crossover.none
    else Crossover.none
  { ema20 := c20, ema50 := c50, crossover := crossover }

/-- `calculateMACD` (dataExtractor.js:596-641).  The source's
`histogram[histogram.length - 2] || 0` only replaces `undefined` (or an
exact `0`) by `0`, which `List.getD` with default `0` captures. -/
def calculateMACD (prices : List ℚ) : MacdInd :=
  if prices.length < 26 then
    { line := 0, signal := 0, histogram := 0, previousHistogram := 0 }
  else
    let ema12 := getEMA prices 12
    let ema26 := getEMA prices 26
    let macdLine := (List.range prices.length).map
      (fun i => if i < 25 then 0 else ema12.getD i 0 - ema26.getD i 0)
    let signalLine := getEMA macdLine 9
    let histogram := (List.range prices.length).map
      (fun i => if i < 33 then 0 else macdLine.getD i 0 - signalLine.getD i 0)
    { line := macdLine.getD (macdLine.length - 1) 0
      signal := signalLine.getD (signalLine.length - 1) 0
      histogram := histogram.getD (histogram.length - 1) 0
      previousHistogram := histogram.getD (histogram.length - 2) 0 }

/-- Successive differences `prices[i] - prices[i-1]` (dataExtractor.js:656-659). -/
def priceChanges : List ℚ → List ℚ
  | [] => []
  | [_] => []
  | a :: b :: rest => (b - a) :: priceChanges (b :: rest)

/-- Wilder smoothing loop (dataExtractor.js:678-681):
`avg = (avg * (period - 1) + value) / period` over the changes past the seed. -/
def wilderAvg (period : ℚ) (init : ℚ) (rest : List ℚ) : ℚ :=
  rest.foldl (fun avg x => (avg * (period - 1) + x) / period) init

/-- `calculateRSI` (dataExtractor.js:649-692).  The source computes
`rs = avgGain / avgLoss; rsi = 100 - 100 / (1 + rs)` with IEEE semantics:
  * `avgLoss > 0`: ordinary arithmetic (the rational value below);
  * `avgLoss = 0, avgGain > 0`: `rs = +∞`, so `rsi = 100 - 0 = 100`;
  * `avgLoss = 0, avgGain = 0`: `rs = 0/0 = NaN` and the NaN propagates to
    the returned value — encoded here as `none`.
Both averages are computed in a single source loop; they do not interact, so
they are smoothed separately here. -/
def calculateRSI (prices : List ℚ) (period : ℕ) : Option ℚ :=
  if prices.length < period + 1 then some 50
  else
    let changes := priceChanges prices
    let gains := changes.map (fun c => if c > 0 then c else 0)
    let losses := changes.map (fun c => if c < 0 then |c| else 0)
    let avgGain := wilderAvg (period : ℚ) ((gains.take period).sum / (period : ℚ)) (gains.drop period)
    let avgLoss := wilderAvg (period : ℚ) ((losses.take period).sum / (period : ℚ)) (losses.drop period)
    if avgLoss = 0 then (if avgGain = 0 then none else some 100)
    else some (100 - 100 / (1 + avgGain / avgLoss))

/-- The source's window ending at index `k + period - 1`: the sliding windows
of `calculateBollingerBands` enumerated from the left. -/
def windowAt (prices : List ℚ) (period k : ℕ) : List ℚ :=
  (prices.drop k).take period

/-- The `sma` array of `calculateBollingerBands` (dataExtractor.js:708-715).
The source sums `prices[i-j]` for `j < period`, i.e. the window in reverse;
the sum is the same. -/
def smaList (prices : List ℚ) (period : ℕ) : List ℚ :=
  (List.range (prices.length - period + 1)).map
    (fun k => (windowAt prices period k).sum / (period : ℚ))

/-- The squares of the `stdDev` array of `calculateBollingerBands`
(dataExtractor.js:718-725): the variance of each window around its SMA.
The source stores `√` of each entry; only comparisons against the bands are
observable downstream, so the variance is kept exact instead. -/
def varList (prices : List ℚ) (period : ℕ) : List ℚ :=
  (List.range (prices.length - period + 1)).map
    (fun k =>
      ((windowAt prices period k).map
        (fun x => (x - (smaList prices period).getD k 0) ^ 2)).sum / (period : ℚ))

/-- The position test of `calculateBollingerBands` (dataExtractor.js:745-750):
`upper` when `price ≥ middle + mult·√variance`, else `lower` when
`price ≤ middle - mult·√variance`, else `middle`.  For `0 ≤ variance` and
`0 ≤ mult` the comparison `mult·√variance ≤ d` is equivalent to
`0 ≤ d ∧ mult²·variance ≤ d²`, which keeps the test decidable over `ℚ`; the
equivalence with the real-valued bands is proved in `twoSqrt_le_iff` below. -/
def bbPos (price middle variance mult : ℚ) : BbPosition :=
  if 0 ≤ price - middle ∧ mult ^ 2 * variance ≤ (price - middle) ^ 2 then .upper
  else if 0 ≤ middle - price ∧ mult ^ 2 * variance ≤ (middle - price) ^ 2 then .lower
  else .middle

/-- `calculateBollingerBands` (dataExtractor.js:701-763): short series give
the all-zero record with position `middle`; otherwise the last SMA window's
mean and variance and the position of the last close.  The source's `upper`,
`lower` and `width` fields are `middle ± mult·√variance` and their ratio to
`middle`; they are recovered in the theorems. -/
def calculateBollingerBands (prices : List ℚ) (period : ℕ) (mult : ℚ) : BbInd :=
  if prices.length < period then { middle := 0, variance := 0, position := .middle }
  else
    let sma := smaList prices period
    let varL := varList prices period
    let m := sma.getD (sma.length - 1) 0
    let v := varL.getD (varL.length - 1) 0
    let c := prices.getD (prices.length - 1) 0
    { middle := m, variance := v, position := bbPos c m v mult }

/-- `analyzeVolume` (dataExtractor.js:771-813). -/
def analyzeVolume (volumes prices : List ℚ) : VolInd :=
  if volumes.length < 10 then { current := 0, average := 0, trend := .stable }
  else
    let avgVolume := ((volumes.drop (volumes.length - 10)).sum) / 10
    let currentVolume := volumes.getD (volumes.length - 1) 0
    let trend :=
      if currentVolume > avgVolume * (3/2) then
        let priceChange := prices.getD (prices.length - 1) 0 - prices.getD (prices.length - 2) 0
        if priceChange > 0 then VolTrend.increasing
        else if priceChange < 0 then VolTrend.decreasing
        else VolTrend.high
      else if currentVolume < avgVolume * (1/2) then VolTrend.low
      else VolTrend.stable
    { current := currentVolume, average := avgVolume, trend := trend }

/-- `calculateAllIndicators` (dataExtractor.js:473-502): fewer than 30 candles
give `getEmptyIndicators`; otherwise every calculator runs on the closes
and volumes. -/
def calculateAllIndicators (candles : List Candle) : Indicators :=
  if candles.length < 30 then getEmptyIndicators
  else
    let closes := candles.map (·.close)
    let volumes := candles.map (·.volume)
    { ema := calculateEMA closes
      macd := calculateMACD closes
      rsi := { value := calculateRSI closes 14 }
      bb := calculateBollingerBands closes 20 2
      volume := analyzeVolume volumes closes }

/-! ## Pattern detector and trend regime (part_001:218-317) -/

inductive Trend | uptrend | downtrend | sideways
  deriving DecidableEq, Repr

/-- `detectTrend` (part_001:299-317): percent change of the close over the
last 10 candles.  `(last - first) / first * 100` with `first = 0` is IEEE
`±∞` (sign of `last`) or `NaN` when `last = 0` as well; `±∞ > 2` / `< -2`
and `NaN`'s comparisons give the branch below. -/
def detectTrend (candles : List Candle) : Trend :=
  if candles.length < 10 then .sideways
  else
    let recent := candles.drop (candles.length - 10)
    let firstPrice := (recent.headD default).close
    let lastPrice := (recent.getLastD default).close
    if firstPrice = 0 then
      if lastPrice > 0 then .uptrend
      else if lastPrice < 0 then .downtrend
      else .sideways
    else
      let pct := (lastPrice - firstPrice) / firstPrice * 100
      if pct > 2 then .uptrend
      else if pct < -2 then .downtrend
      else .sideways

structure PatternResult where
  score : ℚ
  confidence : ℚ
  deriving DecidableEq, Repr

/-- Engulfing and three-in-a-row checks of `detectCandlestickPatterns`
(part_001:254-291), reached when neither the doji nor a trending hammer
returned.  `c3`, `c4`, `c5` are the third-last, second-last and last of the
`slice(-5)` window (the source's `recent.length >= 3` guard is always true
there).  In the source a bullish-vs-bearish shape mismatch inside one
engulfing branch falls through to the three-in-a-row checks, which the
flattened conjunctions preserve. -/
def patternTail (c3 c4 c5 : Candle) : PatternResult :=
  let lastBullish := c5.close > c5.open_
  let prevBullish := c4.close > c4.open_
  if lastBullish ∧ ¬prevBullish ∧ c5.open_ < c4.close ∧ c5.close > c4.open_ then
    { score := 10, confidence := 1/20 }
  else if ¬lastBullish ∧ prevBullish ∧ c5.open_ > c4.close ∧ c5.close < c4.open_ then
    { score := -10, confidence := 1/20 }
  else if lastBullish ∧ prevBullish ∧ c3.close > c3.open_ ∧
      c5.close > c4.close ∧ c4.close > c3.close then
    { score := 10, confidence := 1/20 }
  else if ¬lastBullish ∧ ¬prevBullish ∧ c3.close < c3.open_ ∧
      c5.close < c4.close ∧ c4.close < c3.close then
    { score := -10, confidence := 1/20 }
  else { score := 0, confidence := 0 }

/-- Doji and hammer checks on the last candle followed by `patternTail`
(part_001:229-252).  JS evaluates `bodySize / totalSize < 0.1` with IEEE
division: for `totalSize = 0` the quotient is `NaN` or `+∞` (since
`bodySize ≥ 0`), so the test is false — hence the `totalSize ≠ 0` guard.
A hammer shape in a `sideways` regime falls through to `patternTail`, as in
the source. -/
def patternBody (candles : List Candle) (c3 c4 c5 : Candle) : PatternResult :=
  let bodySize := |c5.close - c5.open_|
  let totalSize := c5.high - c5.low
  if totalSize ≠ 0 ∧ bodySize / totalSize < 1/10 then
    { score := 0, confidence := 1/50 }
  else
    let lowerWick := min c5.open_ c5.close - c5.low
    let upperWick := c5.high - max c5.open_ c5.close
    if lowerWick > bodySize * 2 ∧ upperWick < bodySize * (1/2) then
      match detectTrend candles with
      | .downtrend => { score := 10, confidence := 1/25 }
      | .uptrend => { score := -10, confidence := 1/25 }
      | .sideways => patternTail c3 c4 c5
    else patternTail c3 c4 c5

/-- `detectCandlestickPatterns` (part_001:218-292): fewer than 5 candles give
score 0 and confidence 0; otherwise the checks run on `slice(-5)`, whose
length is exactly 5 (the second match arm is unreachable). -/
def detectCandlestickPatterns (candles : List Candle) : PatternResult :=
  if candles.length < 5 then { score := 0, confidence := 0 }
  else
    match candles.drop (candles.length - 5) with
    | [_, _, c3, c4, c5] => patternBody candles c3 c4 c5
    | _ => { score := 0, confidence := 0 }

/-! ## Prediction fusion (part_001:19-211) and the background copy
(background.js:73-137) -/

/-- The directional score of `getPatternBasedPrediction` (part_001:137-201):
EMA crossover ±25, MACD slope ±20, RSI extremes ±15, Bollinger position ±20,
volume confirmation ±10 in the direction of the running score, plus the
pattern detector's score.  An RSI of `NaN` (`none`) fails both comparisons
and contributes 0, as in JS. -/
def fusionScore (candles : List Candle) (ind : Indicators) : ℚ :=
  let s1 : ℚ :=
    match ind.ema.crossover with
    | .bullish => 25
    | .bearish => -25
    | .none => 0
  let s2 := s1 +
    (if ind.macd.histogram > 0 ∧ ind.macd.histogram > ind.macd.previousHistogram then (20:ℚ)
     else if ind.macd.histogram < 0 ∧ ind.macd.histogram < ind.macd.previousHistogram then -20
     else 0)
  let s3 := s2 +
    (match ind.rsi.value with
     | some r => if r < 30 then (15:ℚ) else if r > 70 then -15 else 0
     | Option.none => 0)
  let s4 := s3 +
    (match ind.bb.position with
     | .lower => (20:ℚ)
     | .upper => -20
     | .middle => 0)
  let s5 := if ind.volume.trend = .increasing then
      (if s4 > 0 then s4 + 10 else if s4 < 0 then s4 - 10 else s4)
    else s4
  s5 + (detectCandlestickPatterns candles).score

/-- The unclamped confidence of `getPatternBasedPrediction`: 0.5 base plus
0.1/0.08/0.06/0.08/0.04 for each indicator category that fired (the volume
increment fires exactly when the trend is `increasing` and the running score
before the volume step is nonzero) plus the pattern detector's confidence.
The source interleaves this with the score updates; the split is a
transparent refactor. -/
def fusionConfidenceRaw (candles : List Candle) (ind : Indicators) : ℚ :=
  let c1 : ℚ := 1/2 +
    (match ind.ema.crossover with
     | .bullish => (1/10 : ℚ)
     | .bearish => 1/10
     | .none => 0)
  let c2 := c1 +
    (if ind.macd.histogram > 0 ∧ ind.macd.histogram > ind.macd.previousHistogram then (2/25:ℚ)
     else if ind.macd.histogram < 0 ∧ ind.macd.histogram < ind.macd.previousHistogram then 2/25
     else 0)
  let c3 := c2 +
    (match ind.rsi.value with
     | some r => if r < 30 then (3/50:ℚ) else if r > 70 then 3/50 else 0
     | Option.none => 0)
  let c4 := c3 +
    (match ind.bb.position with
     | .lower => (2/25:ℚ)
     | .upper => 2/25
     | .middle => 0)
  let s1 : ℚ :=
    match ind.ema.crossover with
    | .bullish => 25
    | .bearish => -25
    | .none => 0
  let s2 := s1 +
    (if ind.macd.histogram > 0 ∧ ind.macd.histogram > ind.macd.previousHistogram then (20:ℚ)
     else if ind.macd.histogram < 0 ∧ ind.macd.histogram < ind.macd.previousHistogram then -20
     else 0)
  let s3 := s2 +
    (match ind.rsi.value with
     | some r => if r < 30 then (15:ℚ) else if r > 70 then -15 else 0
     | Option.none => 0)
  let s4 := s3 +
    (match ind.bb.position with
     | .lower => (20:ℚ)
     | .upper => -20
     | .middle => 0)
  let c5 := c4 + (if ind.volume.trend = .increasing ∧ s4 ≠ 0 then (1/25:ℚ) else 0)
  c5 + (detectCandlestickPatterns candles).confidence

/-- A prediction of the AI-analysis module (part_001), with its `source` tag. -/
structure AiPrediction where
  prediction : String
  confidence : ℚ
  source : String
  deriving DecidableEq, Repr

/-- A prediction of the background script (background.js), without a source tag. -/
structure BgAiResult where
  prediction : String
  confidence : ℚ
  deriving DecidableEq, Repr

/-- `getPatternBasedPrediction` (part_001:137-211): threshold the fused score
at ±15 and clamp the confidence to `[0.3, 0.85]`
(`Math.min(Math.max(c, 0.3), 0.85)`). -/
def getPatternBasedPrediction (candles : List Candle) (ind : Indicators) : AiPrediction :=
  { prediction :=
      if fusionScore candles ind > 15 then "up"
      else if fusionScore candles ind < -15 then "down"
      else "neutral"
    confidence := min (max (fusionConfidenceRaw candles ind) (3/10)) (17/20)
    source := "pattern" }

/-- The observable outcome of the external predictor call (the `fetch` to the
Gemini endpoint plus response parsing), passed as an explicit parameter:

  * `httpError` — network failure / thrown error / `!response.ok`;
  * `extractFailure` — `result.candidates[0].content.parts[0].text` threw
    (malformed envelope);
  * `noJsonMatch` — the `\x7b.*\x7d` regex found nothing in the text;
  * `parsedJson p c` — a JSON object was parsed; `p`/`c` are its
    `prediction`/`confidence` fields, `none` when absent. -/
inductive FetchOutcome
  | httpError
  | extractFailure
  | noJsonMatch
  | parsedJson (p : Option String) (c : Option ℚ)
  deriving DecidableEq, Repr

/-- A failure of the external predictor call: everything except a parsed
payload. -/
def FetchOutcome.isFailure : FetchOutcome → Bool
  | .parsedJson _ _ => false
  | _ => true

/-- `getAIPrediction` of the AI-analysis module (part_001:19-87): no API key
or any failure of the call falls back to `getPatternBasedPrediction`; a
parsed payload is returned with JS-falsy defaults
(`aiResponse.prediction || 'neutral'`, `aiResponse.confidence || 0.5`) and
source `gemini`.  `tf` (the timeframe) only affects the prompt text. -/
def getAIPrediction (apiKey : String) (candles : List Candle) (ind : Indicators)
    (tf : String) (outcome : FetchOutcome) : AiPrediction :=
  if apiKey = "" then getPatternBasedPrediction candles ind
  else
    match outcome with
    | .parsedJson p c =>
      { prediction := jsOrStr p "neutral", confidence := jsOrQ c (1/2), source := "gemini" }
    | _ => getPatternBasedPrediction candles ind

/-- The hard-coded `GEMINI_API_KEY` of background.js:25: the empty string. -/
def GEMINI_API_KEY : String := ""

/-- The background script's own `getAIPrediction` (background.js:73-137):
no API key or any failure returns the fixed `{prediction: 'neutral',
confidence: 0.5}` — it never consults the indicators or the pattern
detector. -/
def bgGetAIPrediction (apiKey : String) (outcome : FetchOutcome) : BgAiResult :=
  if apiKey = "" then { prediction := "neutral", confidence := 1/2 }
  else
    match outcome with
    | .parsedJson p c => { prediction := jsOrStr p "neutral", confidence := jsOrQ c (1/2) }
    | _ => { prediction := "neutral", confidence := 1/2 }

/-! ## Signal scorer (background.js:150-217) -/

structure SignalDetails where
  ema : Crossover
  macd : String
  rsi : Option ℚ
  bb : BbPosition
  volume : VolTrend
  deriving DecidableEq, Repr

structure Signal where
  type : String
  strength : ℚ
  recommendation : String
  aiConfidence : ℚ
  details : SignalDetails
  deriving DecidableEq, Repr

/-- The running `signalPoints` of `generateSignal` (background.js:161-187):
EMA crossover ±20, MACD slope ±20, RSI extremes ±15, Bollinger position ±15,
volume confirmation ±10 in the direction of the running score, plus
`±20 × confidence` for an external `up`/`down` prediction. -/
def signalPoints (ind : Indicators) (ai : BgAiResult) : ℚ :=
  let s1 : ℚ :=
    match ind.ema.crossover with
    | .bullish => 20
    | .bearish => -20
    | .none => 0
  let s2 := s1 +
    (if ind.macd.histogram > 0 ∧ ind.macd.histogram > ind.macd.previousHistogram then (20:ℚ)
     else if ind.macd.histogram < 0 ∧ ind.macd.histogram < ind.macd.previousHistogram then -20
     else 0)
  let s3 := s2 +
    (match ind.rsi.value with
     | some r => if r < 30 then (15:ℚ) else if r > 70 then -15 else 0
     | Option.none => 0)
  let s4 := s3 +
    (match ind.bb.position with
     | .lower => (15:ℚ)
     | .upper => -15
     | .middle => 0)
  let s5 := if ind.volume.trend = .increasing then
      (if s4 > 0 then s4 + 10 else if s4 < 0 then s4 - 10 else s4)
    else s4
  s5 +
    (if ai.prediction = "up" then 20 * ai.confidence
     else if ai.prediction = "down" then -(20 * ai.confidence)
     else 0)

/-- `generateSignal` (background.js:150-217): threshold `signalPoints` at
±30; every branch sets `strength = min(|signalPoints|, 100)`. -/
def generateSignal (ind : Indicators) (ai : BgAiResult) : Signal :=
  let s := signalPoints ind ai
  { type := if s > 30 then "buy" else if s < -30 then "sell" else "neutral"
    strength := min |s| 100
    recommendation := if s > 30 then "Buy" else if s < -30 then "Sell" else "Hold"
    aiConfidence := ai.confidence
    details :=
      { ema := ind.ema.crossover
        macd := if ind.macd.histogram > 0 then "bullish" else "bearish"
        rsi := ind.rsi.value
        bb := ind.bb.position
        volume := ind.volume.trend } }

/-! ## Theorems -/

/-- An indicator bundle whose only firing category is a bullish EMA
crossover; used to exhibit a concrete divergence between the two
`getAIPrediction` implementations. -/
def sampleIndicators : Indicators :=
  { ema := { ema20 := 0, ema50 := 0, crossover := .bullish }
    macd := { line := 0, signal := 0, histogram := 0, previousHistogram := 0 }
    rsi := { value := some 50 }
    bb := { middle := 0, variance := 0, position := .middle }
    volume := { current := 0, average := 0, trend := .stable } }

/-- C1 (counterexample): with the configured empty API key, a failing
external call makes the background script's `getAIPrediction` return the
fixed `{prediction: 'neutral', confidence: 0.5}`, which differs from the
deterministic indicator-weighted local estimate (here `up` with confidence
0.6): the background copy does not fall back to the weighted estimate. -/
theorem bg_fallback_not_pattern_estimate :
    bgGetAIPrediction GEMINI_API_KEY .httpError = { prediction := "neutral", confidence := 1/2 }
    ∧ (getPatternBasedPrediction [] sampleIndicators).prediction = "up"
    ∧ (getPatternBasedPrediction [] sampleIndicators).confidence = 3/5
    ∧ (bgGetAIPrediction GEMINI_API_KEY .httpError).prediction ≠
        (getPatternBasedPrediction [] sampleIndicators).prediction := by
  refine ⟨rfl, ?_, ?_, ?_⟩
  · simp [getPatternBasedPrediction, fusionScore, detectCandlestickPatterns, sampleIndicators]
    norm_num
  · simp [getPatternBasedPrediction, fusionConfidenceRaw, detectCandlestickPatterns,
      sampleIndicators]
    norm_num
  · simp [bgGetAIPrediction, GEMINI_API_KEY, getPatternBasedPrediction, fusionScore,
      detectCandlestickPatterns, sampleIndicators]
    norm_num
    decide

/-- C1 (amended): on every failure of the external predictor call (no API
key, HTTP/network error, malformed envelope, unparseable payload) the
AI-analysis module returns exactly the deterministic pattern-based local
estimate, while the background script's copy returns the fixed
`{prediction: 'neutral', confidence: 0.5}`; neither surfaces the failure as
an error. -/
theorem ai_failure_fallback_behavior (apiKey : String) (candles : List Candle)
    (ind : Indicators) (tf : String) (o : FetchOutcome)
    (h : apiKey = "" ∨ o.isFailure = true) :
    getAIPrediction apiKey candles ind tf o = getPatternBasedPrediction candles ind
    ∧ bgGetAIPrediction apiKey o = { prediction := "neutral", confidence := 1/2 } := by
  unfold getAIPrediction bgGetAIPrediction
  by_cases hk : apiKey = ""
  · rw [if_pos hk, if_pos hk]; exact ⟨rfl, rfl⟩
  · rw [if_neg hk, if_neg hk]
    rcases h with h | h
    · exact absurd h hk
    · cases o with
      | httpError => exact ⟨rfl, rfl⟩
      | extractFailure => exact ⟨rfl, rfl⟩
      | noJsonMatch => exact ⟨rfl, rfl⟩
      | parsedJson p c => simp [FetchOutcome.isFailure] at h

/-- C1 (witness): the fallback theorem instantiated at the empty API key. -/
theorem ai_failure_fallback_behavior_witness :
    (("" : String) = "" ∨ (FetchOutcome.httpError).isFailure = true)
    ∧ (getAIPrediction "" [] sampleIndicators "M1" .httpError =
        getPatternBasedPrediction [] sampleIndicators
      ∧ bgGetAIPrediction "" .httpError = { prediction := "neutral", confidence := 1/2 }) :=
  ⟨Or.inl rfl,
    ai_failure_fallback_behavior "" [] sampleIndicators "M1" .httpError (Or.inl rfl)⟩

/-- C2 (counterexample): recording `(buy, win)` then `(sell, loss)` from
zeroed counters returns `50` — the accuracy percentage — not the `0.5`
ratio claimed. -/
theorem accuracy_returns_percentage_cex :
    (trackSignalAccuracy (trackSignalAccuracy ⟨0, 0⟩ "buy" "win").1 "sell" "loss").2 = 50
    ∧ (trackSignalAccuracy (trackSignalAccuracy ⟨0, 0⟩ "buy" "win").1 "sell" "loss").2 ≠ 1/2 := by
  constructor
  · simp [trackSignalAccuracy]; norm_num
  · simp [trackSignalAccuracy]

/-- C2 (amended): every recorded call increments `totalSignals`;
`correctSignals` is incremented exactly for a `buy`/`sell` signal with a
`win` outcome; the returned value is the accuracy percentage
`(correctSignals / totalSignals) · 100`, and the `(buy, win)`, `(sell, loss)`
scenario from zeroed counters ends with `totalSignals = 2`,
`correctSignals = 1` and returned value `50`. -/
theorem trackSignalAccuracy_spec (st : AccuracyStats) (t r : String) :
    (trackSignalAccuracy st t r).1.totalSignals = st.totalSignals + 1
    ∧ (trackSignalAccuracy st t r).1.correctSignals =
        st.correctSignals + (if (t = "buy" ∧ r = "win") ∨ (t = "sell" ∧ r = "win") then 1 else 0)
    ∧ (trackSignalAccuracy st t r).2 =
        ((trackSignalAccuracy st t r).1.correctSignals : ℚ) /
          ((trackSignalAccuracy st t r).1.totalSignals : ℚ) * 100
    ∧ (trackSignalAccuracy (trackSignalAccuracy ⟨0, 0⟩ "buy" "win").1 "sell" "loss").1.totalSignals = 2
    ∧ (trackSignalAccuracy (trackSignalAccuracy ⟨0, 0⟩ "buy" "win").1 "sell" "loss").1.correctSignals = 1
    ∧ (trackSignalAccuracy (trackSignalAccuracy ⟨0, 0⟩ "buy" "win").1 "sell" "loss").2 = 50 := by
  refine ⟨?_, ?_, ?_, ?_, ?_, ?_⟩
  · unfold trackSignalAccuracy; dsimp only; split_ifs <;> rfl
  · unfold trackSignalAccuracy; dsimp only; split_ifs <;> simp
  · rfl
  · simp [trackSignalAccuracy]
  · simp [trackSignalAccuracy]
  · simp [trackSignalAccuracy]; norm_num

/-- C3: for series shorter than the required lookback the calculators return
fabricated default numbers, not an explicit "insufficient data" marker:
`getEMA` returns a zero-filled array, `calculateRSI` returns `{value: 50}`
(identical to the genuinely computed RSI of a balanced 15-price series),
`calculateBollingerBands` returns zeros with position `middle`, and
`calculateAllIndicators` returns the `getEmptyIndicators` defaults. -/
theorem insufficient_history_fabricated_values :
    getEMA [1, 2, 3] 20 = [0, 0, 0]
    ∧ calculateRSI [1, 2, 3, 4, 5] 14 = some 50
    ∧ calculateRSI [10, 11, 10, 11, 10, 11, 10, 11, 10, 11, 10, 11, 10, 11, 10] 14 = some 50
    ∧ calculateBollingerBands [1, 2, 3] 20 2 = { middle := 0, variance := 0, position := .middle }
    ∧ calculateAllIndicators [] = getEmptyIndicators
    ∧ getEmptyIndicators.rsi.value = some 50 := by
  refine ⟨?_, ?_, ?_, ?_, ?_, rfl⟩
  · norm_num [getEMA]
  · norm_num [calculateRSI]
  · norm_num [calculateRSI, priceChanges, wilderAvg]
  · norm_num [calculateBollingerBands]
  · norm_num [calculateAllIndicators]

/-- C4: on a constant 15-price series every change is `≥ 0`, both smoothed
averages are `0`, and `calculateRSI` computes `rs = 0/0 = NaN` (encoded
`none`) instead of the special-cased `100`; when at least one change is
positive (a strictly rising series) the IEEE evaluation does return exactly
`100`. -/
theorem rsi_zero_avgLoss_nan :
    calculateRSI (List.replicate 15 (5 : ℚ)) 14 = none
    ∧ calculateRSI [1, 2, 3, 4, 5, 6, 7, 8, 9, 10, 11, 12, 13, 14, 15] 14 = some 100 := by
  constructor
  · simp [calculateRSI, priceChanges, wilderAvg, List.replicate]
  · norm_num [calculateRSI, priceChanges, wilderAvg]

/-- A raw candle violating the OHLC invariant (`high = 3` is below
`open = close = 5` and `low = 4`), with all fields defined. -/
def badRaw : RawCandle :=
  { timestamp := some 100, open_ := some 5, high := some 3, low := some 4,
    close := some 5, volume := some 1 }

/-- C5: `isValidCandle` accepts the invariant-violating candle (it only
checks that the four OHLC fields are defined and not NaN) and
`normalizeCandleData` passes it through unchanged to indicator computation
instead of rejecting it. -/
theorem invalid_ohlc_candle_accepted :
    isValidCandle badRaw = true
    ∧ normalizeCandleData [badRaw] "M1" 1000000 =
        [{ timestamp := 100, open_ := 5, high := 3, low := 4, close := 5, volume := 1 }]
    ∧ ¬ candleInvariantOk
        { timestamp := 100, open_ := 5, high := 3, low := 4, close := 5, volume := 1 } := by
  refine ⟨rfl, ?_, ?_⟩
  · norm_num [normalizeCandleData, normGo, getTimeframeInMs, isValidCandle, jsOrQ, badRaw]
  · norm_num [candleInvariantOk]

/-- C10: fewer than 5 candles short-circuit the pattern detector to score 0
and confidence 0, before any candle is inspected. -/
theorem patternDetector_short_circuit (candles : List Candle) (h : candles.length < 5) :
    detectCandlestickPatterns candles = { score := 0, confidence := 0 } := by
  unfold detectCandlestickPatterns
  rw [if_pos h]

/-- C10 (witness): the short-circuit at the empty candle list. -/
theorem patternDetector_short_circuit_witness :
    ([] : List Candle).length < 5
    ∧ detectCandlestickPatterns [] = { score := 0, confidence := 0 } :=
  ⟨by norm_num, patternDetector_short_circuit [] (by norm_num)⟩

/-- C6: the signal scorer returns type `buy` exactly when the weighted score
exceeds 30 and `sell` exactly when it is below -30 (`neutral` otherwise),
and its strength is `min(|score|, 100)`, always within `[0, 100]`. -/
theorem generateSignal_thresholds (ind : Indicators) (ai : BgAiResult) :
    ((generateSignal ind ai).type = "buy" ↔ 30 < signalPoints ind ai)
    ∧ ((generateSignal ind ai).type = "sell" ↔ signalPoints ind ai < -30)
    ∧ ((generateSignal ind ai).type = "neutral" ↔
        (-30 ≤ signalPoints ind ai ∧ signalPoints ind ai ≤ 30))
    ∧ (generateSignal ind ai).strength = min |signalPoints ind ai| 100
    ∧ 0 ≤ (generateSignal ind ai).strength
    ∧ (generateSignal ind ai).strength ≤ 100 := by
  unfold generateSignal
  dsimp only
  set s := signalPoints ind ai with hs
  refine ⟨?_, ?_, ?_, rfl, ?_, ?_⟩
  · split_ifs with h1 h2 <;> simp_all
  · split_ifs with h1 h2 <;> simp_all <;> linarith
  · split_ifs with h1 h2 <;> simp_all
  · exact le_min (abs_nonneg s) (by norm_num)
  · exact min_le_right _ _

/-- C7: the local fallback prediction is `up` exactly when the fused weighted
score exceeds +15 and `down` exactly when it is below -15 (`neutral`
otherwise), and its confidence is the 0.5 base plus the per-category
increments plus the pattern confidence, clamped to `[0.3, 0.85]` — hence
always within those bounds. -/
theorem patternPrediction_thresholds (candles : List Candle) (ind : Indicators) :
    ((getPatternBasedPrediction candles ind).prediction = "up" ↔ 15 < fusionScore candles ind)
    ∧ ((getPatternBasedPrediction candles ind).prediction = "down" ↔
        fusionScore candles ind < -15)
    ∧ ((getPatternBasedPrediction candles ind).prediction = "neutral" ↔
        (-15 ≤ fusionScore candles ind ∧ fusionScore candles ind ≤ 15))
    ∧ (getPatternBasedPrediction candles ind).confidence =
        min (max (fusionConfidenceRaw candles ind) (3/10)) (17/20)
    ∧ 3/10 ≤ (getPatternBasedPrediction candles ind).confidence
    ∧ (getPatternBasedPrediction candles ind).confidence ≤ 17/20 := by
  unfold getPatternBasedPrediction
  dsimp only
  refine ⟨?_, ?_, ?_, rfl, ?_, ?_⟩
  · split_ifs with h1 h2 <;> simp_all
  · split_ifs with h1 h2 <;> simp_all <;> linarith
  · split_ifs with h1 h2 <;> simp_all
  · exact le_min (le_max_right _ _) (by norm_num)
  · exact min_le_right _ _

/-- The EMA recurrence applied to a constant tail keeps emitting the same
value: `v` is a fixed point of `emaStep`. -/
lemma emaScan_const (mult v : ℚ) (k : ℕ) :
    emaScan mult v (List.replicate k v) = List.replicate k v := by
  have hstep : emaStep mult v v = v := by simp [emaStep]
  induction k with
  | zero => rfl
  | succ m ih =>
    rw [List.replicate_succ]
    show emaStep mult v v :: emaScan mult (emaStep mult v v) (List.replicate m v)
        = v :: List.replicate m v
    rw [hstep, ih]

/-- C8: on a constant series of value `v` with length `n ≥ p ≥ 1`, the EMA
seed (the simple average of the first `p` closes) equals `v`, and every EMA
entry from the seed position onward is exactly `v`: the output is `p - 1`
padding zeros followed by `n - p + 1` copies of `v`. -/
theorem ema_constant_series (v : ℚ) (p n : ℕ) (hp : 0 < p) (hpn : p ≤ n) :
    ((List.replicate n v).take p).sum / (p : ℚ) = v
    ∧ getEMA (List.replicate n v) p =
        List.replicate (p - 1) 0 ++ List.replicate (n - p + 1) v := by
  have htake : (List.replicate n v).take p = List.replicate p v := by
    rw [List.take_replicate]; congr 1; omega
  have hsma : ((List.replicate n v).take p).sum / (p : ℚ) = v := by
    rw [htake, List.sum_replicate, nsmul_eq_mul]
    exact mul_div_cancel_left₀ v (Nat.cast_ne_zero.mpr hp.ne')
  refine ⟨hsma, ?_⟩
  unfold getEMA
  rw [if_neg (by simp; omega)]
  dsimp only
  rw [hsma, List.drop_replicate, emaScan_const]
  rw [show n - p + 1 = (n - p) + 1 from rfl, List.replicate_succ]

/-- C8 (witness): the fixed-point theorem at `v = 7`, `p = 3`, `n = 5`. -/
theorem ema_constant_series_witness :
    (0 < 3 ∧ 3 ≤ 5)
    ∧ (((List.replicate 5 (7:ℚ)).take 3).sum / (3 : ℚ) = 7
      ∧ getEMA (List.replicate 5 (7:ℚ)) 3 =
          List.replicate (3 - 1) 0 ++ List.replicate (5 - 3 + 1) 7) :=
  ⟨⟨by norm_num, by norm_num⟩, ema_constant_series 7 3 5 (by norm_num) (by norm_num)⟩

/-- Bridge between the rational band test and the real-valued band: for a
nonnegative variance, `2·√v ≤ d` is equivalent to `0 ≤ d ∧ 2²·v ≤ d²`. -/
lemma twoSqrt_le_iff (d v : ℚ) (hv : 0 ≤ v) :
    (0 ≤ d ∧ (2:ℚ) ^ 2 * v ≤ d ^ 2) ↔ 2 * Real.sqrt (v : ℝ) ≤ (d : ℝ) := by
  have hv' : (0:ℝ) ≤ (v:ℝ) := by exact_mod_cast hv
  constructor
  · rintro ⟨hd, hsq⟩
    have hd' : (0:ℝ) ≤ (d:ℝ) := by exact_mod_cast hd
    have hsq' : ((2:ℝ))^2 * (v:ℝ) ≤ ((d:ℝ))^2 := by exact_mod_cast hsq
    have h1 : Real.sqrt ((2:ℝ)^2 * (v:ℝ)) ≤ Real.sqrt (((d:ℝ))^2) := Real.sqrt_le_sqrt hsq'
    rw [Real.sqrt_sq hd', Real.sqrt_mul (by positivity), Real.sqrt_sq (by norm_num)] at h1
    exact h1
  · intro h
    have h0 : (0:ℝ) ≤ 2 * Real.sqrt (v:ℝ) := by positivity
    have hd' : (0:ℝ) ≤ (d:ℝ) := le_trans h0 h
    refine ⟨by exact_mod_cast hd', ?_⟩
    have hsq : (2 * Real.sqrt (v:ℝ))^2 ≤ ((d:ℝ))^2 := pow_le_pow_left₀ h0 h 2
    rw [mul_pow, Real.sq_sqrt hv'] at hsq
    exact_mod_cast hsq

lemma getD_nonneg (l : List ℚ) (i : ℕ) (h : ∀ x ∈ l, 0 ≤ x) : 0 ≤ l.getD i 0 := by
  rcases Nat.lt_or_ge i l.length with hi | hi
  · rw [List.getD_eq_getElem l 0 hi]
    exact h _ (List.getElem_mem hi)
  · rw [List.getD_eq_default l 0 hi]

/-- Every entry of the variance array is nonnegative (average of squares). -/
lemma varList_entries_nonneg (prices : List ℚ) (period : ℕ) :
    ∀ x ∈ varList prices period, 0 ≤ x := by
  intro x hx
  simp only [varList, List.mem_map] at hx
  obtain ⟨k, _, rfl⟩ := hx
  apply div_nonneg
  · apply List.sum_nonneg
    intro y hy
    simp only [List.mem_map] at hy
    obtain ⟨z, _, rfl⟩ := hy
    positivity
  · positivity

/-- The position test against the real-valued bands `middle ± 2·√variance`:
`upper` has priority, `lower` additionally requires the upper test to fail. -/
lemma bbPos_iff (c m v : ℚ) (hv : 0 ≤ v) :
    (bbPos c m v 2 = .upper ↔ (m:ℝ) + 2 * Real.sqrt (v:ℝ) ≤ (c:ℝ))
    ∧ (bbPos c m v 2 = .lower ↔
        ((c:ℝ) ≤ (m:ℝ) - 2 * Real.sqrt (v:ℝ) ∧ (c:ℝ) < (m:ℝ) + 2 * Real.sqrt (v:ℝ)))
    ∧ (bbPos c m v 2 = .middle ↔
        ((m:ℝ) - 2 * Real.sqrt (v:ℝ) < (c:ℝ) ∧ (c:ℝ) < (m:ℝ) + 2 * Real.sqrt (v:ℝ))) := by
  have h1 := twoSqrt_le_iff (c - m) v hv
  have h2 := twoSqrt_le_iff (m - c) v hv
  have hc1 : ((c - m : ℚ) : ℝ) = (c:ℝ) - (m:ℝ) := by push_cast; ring
  have hc2 : ((m - c : ℚ) : ℝ) = (m:ℝ) - (c:ℝ) := by push_cast; ring
  rw [hc1] at h1
  rw [hc2] at h2
  unfold bbPos
  split_ifs with hA hB
  · have hA' := h1.mp hA
    refine ⟨?_, ?_, ?_⟩
    · constructor
      · intro _
        linarith
      · intro _
        rfl
    · constructor
      · intro h
        simp at h
      · rintro ⟨ha, hb⟩
        exfalso
        linarith
    · constructor
      · intro h
        simp at h
      · rintro ⟨ha, hb⟩
        exfalso
        linarith
  · have hB' := h2.mp hB
    have hA' : ¬ (2 * Real.sqrt (v:ℝ) ≤ (c:ℝ) - (m:ℝ)) := fun h => hA (h1.mpr h)
    push_neg at hA'
    refine ⟨?_, ?_, ?_⟩
    · constructor
      · intro h
        simp at h
      · intro h
        exfalso
        linarith
    · constructor
      · intro _
        exact ⟨by linarith, by linarith⟩
      · intro _
        rfl
    · constructor
      · intro h
        simp at h
      · rintro ⟨ha, hb⟩
        exfalso
        linarith
  · have hA' : ¬ (2 * Real.sqrt (v:ℝ) ≤ (c:ℝ) - (m:ℝ)) := fun h => hA (h1.mpr h)
    have hB' : ¬ (2 * Real.sqrt (v:ℝ) ≤ (m:ℝ) - (c:ℝ)) := fun h => hB (h2.mpr h)
    push_neg at hA' hB'
    refine ⟨?_, ?_, ?_⟩
    · constructor
      · intro h
        simp at h
      · intro h
        exfalso
        linarith
    · constructor
      · intro h
        simp at h
      · rintro ⟨ha, hb⟩
        exfalso
        linarith
    · constructor
      · intro _
        exact ⟨by linarith, by linarith⟩
      · intro _
        rfl

/-- C9 (counterexample): on a constant 20-price series the standard deviation
is 0 and the last close sits on both bands; the last close is `≤ middle -
2·stddev`, yet the position is `upper`, not `lower` — the claimed "lower iff
≤ lower band" fails on the boundary-degenerate input. -/
theorem bollinger_lower_iff_cex :
    (calculateBollingerBands (List.replicate 20 (5:ℚ)) 20 2).position = .upper
    ∧ ((((List.replicate 20 (5:ℚ)).getD (20 - 1) 0 : ℚ) : ℝ) ≤
        ((calculateBollingerBands (List.replicate 20 (5:ℚ)) 20 2).middle : ℝ)
          - 2 * Real.sqrt ((calculateBollingerBands (List.replicate 20 (5:ℚ)) 20 2).variance : ℝ))
    ∧ (calculateBollingerBands (List.replicate 20 (5:ℚ)) 20 2).position ≠ .lower := by
  have h1 : calculateBollingerBands (List.replicate 20 (5:ℚ)) 20 2 =
      { middle := 5, variance := 0, position := .upper } := by
    norm_num [calculateBollingerBands, smaList, varList, windowAt, bbPos,
      List.replicate, List.range_succ]
  have h2 : ((List.replicate 20 (5:ℚ)).getD (20 - 1) 0 : ℚ) = 5 := by
    norm_num [List.getD]
  rw [h1, h2]
  refine ⟨rfl, ?_, by simp⟩
  simp [Real.sqrt_zero]

/-- C9 (amended): for series meeting the 20-period requirement, position is
`upper` iff the last close is `≥ middle + 2·stddev`; position is `lower` iff
the last close is `≤ middle - 2·stddev` AND strictly below `middle +
2·stddev` (the upper test has priority in the degenerate zero-stddev
overlap); position is `middle` iff the last close lies strictly between the
bands.  Both band comparisons are boundary-inclusive. -/
theorem bollinger_position_priority (prices : List ℚ) (h : 20 ≤ prices.length) :
    ((calculateBollingerBands prices 20 2).position = .upper ↔
        ((calculateBollingerBands prices 20 2).middle : ℝ)
          + 2 * Real.sqrt ((calculateBollingerBands prices 20 2).variance : ℝ)
          ≤ ((prices.getD (prices.length - 1) 0 : ℚ) : ℝ))
    ∧ ((calculateBollingerBands prices 20 2).position = .lower ↔
        (((prices.getD (prices.length - 1) 0 : ℚ) : ℝ) ≤
            ((calculateBollingerBands prices 20 2).middle : ℝ)
              - 2 * Real.sqrt ((calculateBollingerBands prices 20 2).variance : ℝ)
          ∧ ((prices.getD (prices.length - 1) 0 : ℚ) : ℝ) <
            ((calculateBollingerBands prices 20 2).middle : ℝ)
              + 2 * Real.sqrt ((calculateBollingerBands prices 20 2).variance : ℝ)))
    ∧ ((calculateBollingerBands prices 20 2).position = .middle ↔
        (((calculateBollingerBands prices 20 2).middle : ℝ)
            - 2 * Real.sqrt ((calculateBollingerBands prices 20 2).variance : ℝ)
            < ((prices.getD (prices.length - 1) 0 : ℚ) : ℝ)
          ∧ ((prices.getD (prices.length - 1) 0 : ℚ) : ℝ) <
            ((calculateBollingerBands prices 20 2).middle : ℝ)
              + 2 * Real.sqrt ((calculateBollingerBands prices 20 2).variance : ℝ))) := by
  have hnot : ¬ (prices.length < 20) := by omega
  have hval : calculateBollingerBands prices 20 2 =
      { middle := (smaList prices 20).getD ((smaList prices 20).length - 1) 0
        variance := (varList prices 20).getD ((varList prices 20).length - 1) 0
        position := bbPos (prices.getD (prices.length - 1) 0)
          ((smaList prices 20).getD ((smaList prices 20).length - 1) 0)
          ((varList prices 20).getD ((varList prices 20).length - 1) 0) 2 } := by
    unfold calculateBollingerBands
    rw [if_neg hnot]
  rw [hval]
  exact bbPos_iff _ _ _ (getD_nonneg _ _ (varList_entries_nonneg prices 20))

/-- C9 (witness): the amended position theorem at a rising 20-price series. -/
theorem bollinger_position_priority_witness :
    20 ≤ (List.replicate 20 (3:ℚ)).length
    ∧ (((calculateBollingerBands (List.replicate 20 (3:ℚ)) 20 2).position = .upper ↔
        ((calculateBollingerBands (List.replicate 20 (3:ℚ)) 20 2).middle : ℝ)
          + 2 * Real.sqrt ((calculateBollingerBands (List.replicate 20 (3:ℚ)) 20 2).variance : ℝ)
          ≤ (((List.replicate 20 (3:ℚ)).getD ((List.replicate 20 (3:ℚ)).length - 1) 0 : ℚ) : ℝ))
    ∧ (((calculateBollingerBands (List.replicate 20 (3:ℚ)) 20 2).position = .lower ↔
        ((((List.replicate 20 (3:ℚ)).getD ((List.replicate 20 (3:ℚ)).length - 1) 0 : ℚ) : ℝ) ≤
            ((calculateBollingerBands (List.replicate 20 (3:ℚ)) 20 2).middle : ℝ)
              - 2 * Real.sqrt ((calculateBollingerBands (List.replicate 20 (3:ℚ)) 20 2).variance : ℝ)
          ∧ (((List.replicate 20 (3:ℚ)).getD ((List.replicate 20 (3:ℚ)).length - 1) 0 : ℚ) : ℝ) <
            ((calculateBollingerBands (List.replicate 20 (3:ℚ)) 20 2).middle : ℝ)
              + 2 * Real.sqrt ((calculateBollingerBands (List.replicate 20 (3:ℚ)) 20 2).variance : ℝ)))
    ∧ ((calculateBollingerBands (List.replicate 20 (3:ℚ)) 20 2).position = .middle ↔
        (((calculateBollingerBands (List.replicate 20 (3:ℚ)) 20 2).middle : ℝ)
            - 2 * Real.sqrt ((calculateBollingerBands (List.replicate 20 (3:ℚ)) 20 2).variance : ℝ)
            < (((List.replicate 20 (3:ℚ)).getD ((List.replicate 20 (3:ℚ)).length - 1) 0 : ℚ) : ℝ)
          ∧ (((List.replicate 20 (3:ℚ)).getD ((List.replicate 20 (3:ℚ)).length - 1) 0 : ℚ) : ℝ) <
            ((calculateBollingerBands (List.replicate 20 (3:ℚ)) 20 2).middle : ℝ)
              + 2 * Real.sqrt ((calculateBollingerBands (List.replicate 20 (3:ℚ)) 20 2).variance : ℝ))))) :=
  ⟨by simp, bollinger_position_priority (List.replicate 20 (3:ℚ)) (by simp)⟩

end QuotexTrader
